import Mathlib

/-!
Shallow embedding of `src/scraper.py` (async web scraper with rate limiting,
bounded retries with exponential backoff, and batch statistics), together with
proofs of the behavioural properties of its core components.

Modelling conventions:
* Wall-clock times and durations are rationals (`ℚ`); Python floats carry exact
  small values in every scenario considered here.
* The network is an oracle: each attempt of a fetch is assigned an
  `AttemptOutcome` (an HTTP response with a status and body, a timeout, or an
  aiohttp client error); HTML extraction is an oracle `String → Option Article`.
* `asyncio` interleaving for `RateLimiter.wait` is modelled as a small-step
  scheduler over task program counters: the only suspension point inside
  `wait` is the `asyncio.sleep` call, so a task's code between suspension
  points executes atomically.
-/

/-- Status de scraping (`class ScraperStatus(Enum)` in `scraper.py`). -/
inductive ScraperStatus where
  | pending
  | running
  | completed
  | failed
deriving DecidableEq, Repr

/-- Modelo de artigo extraído (`@dataclass Article` in `scraper.py`).
`scraped_at` is a timestamp string filled in by `__post_init__`. -/
structure Article where
  title : String
  url : String
  author : Option String := none
  published_date : Option String := none
  summary : Option String := none
  scraped_at : String := ""
deriving DecidableEq, Repr

/-- Estatísticas de scraping (`@dataclass ScraperStats` in `scraper.py`). -/
structure ScraperStats where
  total_items : Nat := 0
  successful_items : Nat := 0
  failed_items : Nat := 0
  total_time : ℚ := 0
  items_per_second : ℚ := 0
  status : ScraperStatus := ScraperStatus.pending
deriving DecidableEq, Repr

/-- The default `ScraperStats()` value created by `WebScraper.__init__`. -/
def initStats : ScraperStats := {}

/-- Limitador de taxa (`class RateLimiter` in `scraper.py`): `min_interval` is
`1.0 / requests_per_second`, `last_request_time` starts at `0.0`. -/
structure RateLimiter where
  requests_per_second : ℚ
  min_interval : ℚ
  last_request_time : ℚ
deriving DecidableEq, Repr

/-- `RateLimiter.__init__`: computes `1.0 / requests_per_second`.  In Python
this division raises `ZeroDivisionError` exactly when the argument is `0`
(a negative rate divides without error), which the `Except` models. -/
def RateLimiter.init (requests_per_second : ℚ) : Except String RateLimiter :=
  if requests_per_second = 0 then
    Except.error "ZeroDivisionError"
  else
    Except.ok
      { requests_per_second := requests_per_second
        min_interval := 1 / requests_per_second
        last_request_time := 0 }

/-- One uninterrupted execution of `RateLimiter.wait` starting at wall-clock
time `now`: compute `elapsed = now - last_request_time`, sleep the remaining
difference when `elapsed < min_interval`, then store the resume time.
Returns the updated limiter and the recorded grant time. -/
def RateLimiter.wait (rl : RateLimiter) (now : ℚ) : RateLimiter × ℚ :=
  let elapsed := now - rl.last_request_time
  let resume := if elapsed < rl.min_interval then now + (rl.min_interval - elapsed) else now
  ({ rl with last_request_time := resume }, resume)

/-- Grant times produced by a sequence of back-to-back `wait` calls by a single
task: the `i`-th call is issued `delays[i] ≥ 0` after the previous call
returned (the first, `delays[0]` after time `last_request_time`). -/
def waitRun (rl : RateLimiter) : List ℚ → List ℚ
  | [] => []
  | d :: rest =>
    let step := rl.wait (rl.last_request_time + d)
    step.2 :: waitRun step.1 rest

/-- Outcome the network oracle assigns to one fetch attempt: an HTTP response,
an `asyncio.TimeoutError`, or an `aiohttp.ClientError`. -/
inductive AttemptOutcome where
  | response (status : Nat) (body : String)
  | timeout
  | clientError
deriving DecidableEq, Repr

/-- Result of one attempt of the loop body of `WebScraper.fetch_url`: the body
when `response.status == 200`, otherwise `None`-so-far (a non-200 status falls
through with a warning; timeouts and client errors are caught). -/
def attemptResult : AttemptOutcome → Option String
  | AttemptOutcome.response status body => if status == 200 then some body else none
  | AttemptOutcome.timeout => none
  | AttemptOutcome.clientError => none

/-- Observable trace of one `fetch_url` call: its return value, the number of
request attempts issued, and the list of backoff sleep durations (seconds). -/
structure FetchTrace where
  result : Option String
  attempts : Nat
  sleeps : List Nat
deriving DecidableEq, Repr

/-- The `for attempt in range(self.max_retries)` loop of `WebScraper.fetch_url`,
unrolled over the list of remaining attempt indices.  A 200 response returns
immediately; otherwise the attempt fails and, when it is not the last one
(`attempt < max_retries - 1`), the task sleeps `2 ** attempt` seconds. -/
def fetchGo (outcomes : Nat → AttemptOutcome) (max_retries : Nat) :
    List Nat → FetchTrace
  | [] => { result := none, attempts := 0, sleeps := [] }
  | a :: rest =>
    match attemptResult (outcomes a) with
    | some body => { result := some body, attempts := 1, sleeps := [] }
    | none =>
      let t := fetchGo outcomes max_retries rest
      { result := t.result
        attempts := t.attempts + 1
        sleeps := (if a < max_retries - 1 then [2 ^ a] else []) ++ t.sleeps }

/-- `WebScraper.fetch_url` with the per-attempt network outcomes supplied by
the oracle `outcomes`. -/
def fetch_url (outcomes : Nat → AttemptOutcome) (max_retries : Nat) : FetchTrace :=
  fetchGo outcomes max_retries (List.range max_retries)

/-- Helper: on an all-failing oracle the loop traverses every attempt index,
returns `none`, and sleeps `2^a` after each index `a < max_retries - 1`. -/
theorem fetchGo_all_fail (outcomes : Nat → AttemptOutcome) (mr : Nat)
    (hfail : ∀ i, attemptResult (outcomes i) = none) :
    ∀ l : List Nat,
      fetchGo outcomes mr l =
        { result := none
          attempts := l.length
          sleeps := l.filterMap (fun a => if a < mr - 1 then some (2 ^ a) else none) } := by
  intro l
  induction l with
  | nil => rfl
  | cons a rest ih =>
    simp only [fetchGo, hfail a, ih, List.length_cons, List.filterMap_cons]
    by_cases h : a < mr - 1 <;> simp [h]

/-- Helper: a filterMap whose condition holds on every element is a map. -/
theorem filterMap_ite_all {α β : Type} (p : α → Prop) [DecidablePred p] (g : α → β) :
    ∀ l : List α, (∀ a ∈ l, p a) →
      l.filterMap (fun a => if p a then some (g a) else none) = l.map g := by
  intro l
  induction l with
  | nil => intro _; rfl
  | cons a rest ih =>
    intro hall
    have ha : p a := hall a (List.mem_cons_self a rest)
    simp only [List.filterMap_cons, List.map_cons, if_pos ha]
    rw [ih fun b hb => hall b (List.mem_cons_of_mem a hb)]

/-- Helper: the backoff durations of an all-failing run of `max_retries ≥ 1`
attempts are exactly `2^0, …, 2^(max_retries-2)`. -/
theorem range_filterMap_backoff (mr : Nat) (hmr : 1 ≤ mr) :
    (List.range mr).filterMap
        (fun a => if a < mr - 1 then some (2 ^ a) else none) =
      (List.range (mr - 1)).map (fun i => 2 ^ i) := by
  obtain ⟨k, rfl⟩ : ∃ k, mr = k + 1 := ⟨mr - 1, (Nat.succ_pred_eq_of_pos hmr).symm⟩
  rw [List.range_succ, List.filterMap_append]
  simp only [Nat.add_sub_cancel]
  rw [filterMap_ite_all (fun a => a < k) (fun a => 2 ^ a) (List.range k)
    (fun a ha => List.mem_range.mp ha)]
  simp

/-- Helper: sums over `List.range` agree with sums over `Finset.range`. -/
theorem list_range_map_sum (n : Nat) (f : Nat → Nat) :
    ((List.range n).map f).sum = ∑ i in Finset.range n, f i := by
  induction n with
  | zero => rfl
  | succ k ih =>
    rw [List.range_succ, List.map_append, List.sum_append, Finset.sum_range_succ, ih]
    simp

/-- C3: on a URL whose fetch fails on every attempt, `fetch_url` with
`max_retries ≥ 1` issues exactly `max_retries` attempts, sleeps `2^attempt`
seconds after each non-final attempt (so the total backoff is
`∑ i < max_retries - 1, 2^i`), and with `max_retries = 1` performs a single
attempt with no backoff sleep. -/
theorem fetch_url_all_fail_attempts_and_backoff
    (outcomes : Nat → AttemptOutcome) (mr : Nat) (hmr : 1 ≤ mr)
    (hfail : ∀ i, attemptResult (outcomes i) = none) :
    (fetch_url outcomes mr).attempts = mr ∧
    (fetch_url outcomes mr).sleeps = (List.range (mr - 1)).map (fun i => 2 ^ i) ∧
    (fetch_url outcomes mr).sleeps.sum = ∑ i in Finset.range (mr - 1), 2 ^ i ∧
    (mr = 1 → (fetch_url outcomes mr).attempts = 1 ∧ (fetch_url outcomes mr).sleeps = []) := by
  have h := fetchGo_all_fail outcomes mr hfail (List.range mr)
  have hs : (fetch_url outcomes mr).sleeps = (List.range (mr - 1)).map (fun i => 2 ^ i) := by
    rw [fetch_url, h]
    exact range_filterMap_backoff mr hmr
  refine ⟨by rw [fetch_url, h]; simp, hs, ?_, ?_⟩
  · rw [hs]; exact list_range_map_sum (mr - 1) (fun i => 2 ^ i)
  · intro h1
    subst h1
    exact ⟨by rw [fetch_url, h]; rfl, by rw [hs]; rfl⟩

/-- C3 witness: with `max_retries = 3` and every attempt timing out, there are
exactly 3 attempts and the backoff sleeps are `[1, 2]`, summing to `2^0 + 2^1`. -/
theorem fetch_url_all_fail_attempts_and_backoff_witness :
    (fetch_url (fun _ => AttemptOutcome.timeout) 3).attempts = 3 ∧
    (fetch_url (fun _ => AttemptOutcome.timeout) 3).sleeps =
      (List.range 2).map (fun i => 2 ^ i) ∧
    (fetch_url (fun _ => AttemptOutcome.timeout) 3).sleeps.sum =
      ∑ i in Finset.range 2, 2 ^ i ∧
    ((3 : Nat) = 1 → (fetch_url (fun _ => AttemptOutcome.timeout) 3).attempts = 1 ∧
      (fetch_url (fun _ => AttemptOutcome.timeout) 3).sleeps = []) :=
  fetch_url_all_fail_attempts_and_backoff (fun _ => AttemptOutcome.timeout) 3
    (by decide) (fun _ => rfl)

/-- Helper: only a status-200 response yields a per-attempt success. -/
theorem attemptResult_ne_200 (s : Nat) (b : String) (hs : s ≠ 200) :
    attemptResult (AttemptOutcome.response s b) = none := by
  simp [attemptResult, hs]

/-- C4 counterexample: the claim says any 2xx response returns its body, but
the code tests `response.status == 200` exactly: a 201 response (a 2xx status)
is classified as a retryable failure, and with `max_retries = 2` the fetch
retries it and ends with no result instead of returning the body. -/
theorem status_201_retried_not_returned :
    (200 ≤ 201 ∧ 201 < 300) ∧
    attemptResult (AttemptOutcome.response 201 "body") = none ∧
    (fetch_url (fun _ => AttemptOutcome.response 201 "body") 2).result = none ∧
    (fetch_url (fun _ => AttemptOutcome.response 201 "body") 2).attempts = 2 := by
  refine ⟨by decide, rfl, ?_, ?_⟩ <;> rfl

/-- C4 (amended): an attempt whose response has status exactly 200 returns its
body immediately — the retry loop exits after that single attempt with no
backoff sleep — while a response with any other status (including other 2xx
codes), a timeout, or a client error each count as a retryable failure for
that attempt, with no distinction among non-200 statuses. -/
theorem fetch_attempt_classification
    (outcomes : Nat → AttemptOutcome) (mr : Nat) (body : String)
    (hmr : 0 < mr) (h0 : outcomes 0 = AttemptOutcome.response 200 body) :
    fetch_url outcomes mr = { result := some body, attempts := 1, sleeps := [] } ∧
    (∀ s b, s ≠ 200 → attemptResult (AttemptOutcome.response s b) = none) ∧
    attemptResult AttemptOutcome.timeout = none ∧
    attemptResult AttemptOutcome.clientError = none := by
  refine ⟨?_, attemptResult_ne_200, rfl, rfl⟩
  obtain ⟨k, rfl⟩ : ∃ k, mr = k + 1 := ⟨mr - 1, (Nat.succ_pred_eq_of_pos hmr).symm⟩
  rw [fetch_url, List.range_succ_eq_map, fetchGo, h0]
  simp [attemptResult]

/-- C4 witness: a direct 200 response with `max_retries = 3` returns the body
after one attempt and no sleeps. -/
theorem fetch_attempt_classification_witness :
    fetch_url (fun _ => AttemptOutcome.response 200 "hello") 3 =
      { result := some "hello", attempts := 1, sleeps := [] } ∧
    (∀ s b, s ≠ 200 → attemptResult (AttemptOutcome.response s b) = none) ∧
    attemptResult AttemptOutcome.timeout = none ∧
    attemptResult AttemptOutcome.clientError = none :=
  fetch_attempt_classification (fun _ => AttemptOutcome.response 200 "hello") 3 "hello"
    (by decide) rfl

/-- C6: when every attempt fails, `fetch_url` returns `None` to its caller
(the per-attempt timeouts and client errors are caught inside the loop, so the
caller observes a failure value rather than a raised exception). -/
theorem fetch_url_all_fail_returns_none
    (outcomes : Nat → AttemptOutcome) (mr : Nat)
    (hfail : ∀ i, attemptResult (outcomes i) = none) :
    (fetch_url outcomes mr).result = none := by
  rw [fetch_url, fetchGo_all_fail outcomes mr hfail (List.range mr)]

/-- C6 witness: three client errors in a row yield the failure value `none`. -/
theorem fetch_url_all_fail_returns_none_witness :
    (fetch_url (fun _ => AttemptOutcome.clientError) 3).result = none :=
  fetch_url_all_fail_returns_none (fun _ => AttemptOutcome.clientError) 3 (fun _ => rfl)

/-- One entry of the list returned by `asyncio.gather(*tasks,
return_exceptions=True)` in `scrape_articles`: an `Article`, a raised
exception captured by `gather`, or a non-`Article` value (`None`). -/
inductive ScrapeResult where
  | article (a : Article)
  | exn
  | noResult
deriving DecidableEq, Repr

/-- Number of `Article` entries among the gathered results. -/
def countSucc (results : List ScrapeResult) : Nat :=
  (results.filter fun r => match r with | ScrapeResult.article _ => true | _ => false).length

/-- Number of non-`Article` entries among the gathered results. -/
def countFail (results : List ScrapeResult) : Nat :=
  (results.filter fun r => match r with | ScrapeResult.article _ => false | _ => true).length

/-- The `Article` entries among the gathered results, in order. -/
def articlesOf (results : List ScrapeResult) : List Article :=
  results.filterMap fun r => match r with | ScrapeResult.article a => some a | _ => none

/-- The first two statements of `scrape_articles`: set `status = RUNNING` and
overwrite `total_items` with `len(urls)`; no other field is touched. -/
def scrapeStart (stats : ScraperStats) (n : Nat) : ScraperStats :=
  { stats with status := ScraperStatus.running, total_items := n }

/-- The `for result in results` aggregation loop of `scrape_articles`: an
`Article` is appended and increments `successful_items`; an exception or any
other value increments `failed_items`. -/
def foldResults : List ScrapeResult → ScraperStats × List Article → ScraperStats × List Article
  | [], acc => acc
  | r :: rest, (stats, articles) =>
    match r with
    | ScrapeResult.article a =>
      foldResults rest
        ({ stats with successful_items := stats.successful_items + 1 }, articles ++ [a])
    | _ =>
      foldResults rest ({ stats with failed_items := stats.failed_items + 1 }, articles)

/-- `WebScraper.scrape_articles` given the gathered per-URL results and the
elapsed wall time of the batch: marks the stats running, overwrites
`total_items`, folds the results, then writes `total_time`, the guarded
throughput `successful / elapsed if elapsed > 0 else 0`, and
`status = COMPLETED`.  Returns the updated stats and the collected articles. -/
def scrape_articles (stats : ScraperStats) (results : List ScrapeResult) (elapsed : ℚ) :
    ScraperStats × List Article :=
  let s1 := scrapeStart stats results.length
  let folded := foldResults results (s1, [])
  let s2 := folded.1
  ({ s2 with
      total_time := elapsed
      items_per_second :=
        if elapsed > 0 then (s2.successful_items : ℚ) / elapsed else 0
      status := ScraperStatus.completed },
    folded.2)

/-- `WebScraper._scrape_single_url`: fetch, return `None` when the body is
falsy (`None` or the empty string), otherwise run the extraction step
(`extract` is the BeautifulSoup field extraction, an external oracle whose
exceptions are caught and turned into `None`). -/
def scrape_single_url (max_retries : Nat) (outcomes : Nat → AttemptOutcome)
    (extract : String → Option Article) : Option Article :=
  match (fetch_url outcomes max_retries).result with
  | none => none
  | some html => if html = "" then none else extract html

/-- Conversion of a pipeline outcome to a gathered result: `_scrape_single_url`
catches every exception internally, so `gather` only ever sees an `Article` or
`None`. -/
def toResult : Option Article → ScrapeResult
  | some a => ScrapeResult.article a
  | none => ScrapeResult.noResult

/-- `scrape_articles` driven end-to-end by network and extraction oracles:
one `_scrape_single_url` pipeline per URL. -/
def scrape_articles_run (stats : ScraperStats) (urls : List String) (max_retries : Nat)
    (fetches : String → Nat → AttemptOutcome) (extract : String → String → Option Article)
    (elapsed : ℚ) : ScraperStats × List Article :=
  scrape_articles stats
    (urls.map fun u => toResult (scrape_single_url max_retries (fetches u) (extract u)))
    elapsed

/-- Total number of network request attempts issued by a batch. -/
def totalAttempts (urls : List String) (max_retries : Nat)
    (fetches : String → Nat → AttemptOutcome) : Nat :=
  (urls.map fun u => (fetch_url (fetches u) max_retries).attempts).sum

/-- Helper: full characterisation of the aggregation loop — each counter
advances by the number of results of its kind, every other field is preserved,
and the collected articles are appended in order. -/
theorem foldResults_spec (results : List ScrapeResult) :
    ∀ stats articles,
      (foldResults results (stats, articles)).1.successful_items
          = stats.successful_items + countSucc results ∧
      (foldResults results (stats, articles)).1.failed_items
          = stats.failed_items + countFail results ∧
      (foldResults results (stats, articles)).1.total_items = stats.total_items ∧
      (foldResults results (stats, articles)).1.total_time = stats.total_time ∧
      (foldResults results (stats, articles)).1.items_per_second = stats.items_per_second ∧
      (foldResults results (stats, articles)).1.status = stats.status ∧
      (foldResults results (stats, articles)).2 = articles ++ articlesOf results := by
  induction results with
  | nil =>
    intro stats articles
    simp [foldResults, countSucc, countFail, articlesOf]
  | cons r rest ih =>
    intro stats articles
    cases r with
    | article a =>
      have h := ih { stats with successful_items := stats.successful_items + 1 }
        (articles ++ [a])
      simp only [foldResults] at h ⊢
      refine ⟨?_, ?_, h.2.2.1, h.2.2.2.1, h.2.2.2.2.1, h.2.2.2.2.2.1, ?_⟩
      · rw [h.1]; simp [countSucc, List.filter_cons]; ring
      · rw [h.2.1]; simp [countFail, List.filter_cons]
      · rw [h.2.2.2.2.2.2]; simp [articlesOf, List.filterMap_cons]
    | exn =>
      have h := ih { stats with failed_items := stats.failed_items + 1 } articles
      simp only [foldResults] at h ⊢
      refine ⟨?_, ?_, h.2.2.1, h.2.2.2.1, h.2.2.2.2.1, h.2.2.2.2.2.1, ?_⟩
      · rw [h.1]; simp [countSucc, List.filter_cons]
      · rw [h.2.1]; simp [countFail, List.filter_cons]; ring
      · rw [h.2.2.2.2.2.2]; simp [articlesOf, List.filterMap_cons]
    | noResult =>
      have h := ih { stats with failed_items := stats.failed_items + 1 } articles
      simp only [foldResults] at h ⊢
      refine ⟨?_, ?_, h.2.2.1, h.2.2.2.1, h.2.2.2.2.1, h.2.2.2.2.2.1, ?_⟩
      · rw [h.1]; simp [countSucc, List.filter_cons]
      · rw [h.2.1]; simp [countFail, List.filter_cons]; ring
      · rw [h.2.2.2.2.2.2]; simp [articlesOf, List.filterMap_cons]

/-- Helper: every gathered result is counted exactly once. -/
theorem countSucc_add_countFail (results : List ScrapeResult) :
    countSucc results + countFail results = results.length := by
  induction results with
  | nil => rfl
  | cons r rest ih =>
    cases r <;> simp [countSucc, countFail, List.filter_cons] at ih ⊢ <;> omega

/-- Helper: the number of collected articles equals the success count. -/
theorem articlesOf_length (results : List ScrapeResult) :
    (articlesOf results).length = countSucc results := by
  induction results with
  | nil => rfl
  | cons r rest ih =>
    cases r <;> simp [articlesOf, countSucc, List.filterMap_cons, List.filter_cons] at ih ⊢
      <;> omega

/-- Helper: field-by-field characterisation of one `scrape_articles` call. -/
theorem scrape_articles_fields (s : ScraperStats) (rs : List ScrapeResult) (e : ℚ) :
    (scrape_articles s rs e).1.successful_items = s.successful_items + countSucc rs ∧
    (scrape_articles s rs e).1.failed_items = s.failed_items + countFail rs ∧
    (scrape_articles s rs e).1.total_items = rs.length ∧
    (scrape_articles s rs e).1.total_time = e ∧
    (scrape_articles s rs e).1.items_per_second =
      (if e > 0 then ((s.successful_items + countSucc rs : Nat) : ℚ) / e else 0) ∧
    (scrape_articles s rs e).1.status = ScraperStatus.completed ∧
    (scrape_articles s rs e).2 = articlesOf rs := by
  have h := foldResults_spec rs (scrapeStart s rs.length) []
  simp only [scrape_articles]
  refine ⟨h.1, h.2.1, ?_, trivial, ?_, trivial, ?_⟩
  · exact h.2.2.1
  · simp only [scrapeStart] at h ⊢
    rw [h.1]
  · rw [h.2.2.2.2.2.2]; simp

/-- C2: starting from the constructor's zeroed counters, after
`scrape_articles(urls)` completes — whatever mix of per-URL successes and
failures the network and extraction oracles produce —
`successful_items + failed_items = total_items` holds. -/
theorem stats_sum_invariant (stats : ScraperStats) (urls : List String) (mr : Nat)
    (fetches : String → Nat → AttemptOutcome) (extract : String → String → Option Article)
    (elapsed : ℚ)
    (hsucc : stats.successful_items = 0) (hfail : stats.failed_items = 0) :
    (scrape_articles_run stats urls mr fetches extract elapsed).1.successful_items +
        (scrape_articles_run stats urls mr fetches extract elapsed).1.failed_items =
      (scrape_articles_run stats urls mr fetches extract elapsed).1.total_items := by
  have h := scrape_articles_fields stats
    (urls.map fun u => toResult (scrape_single_url mr (fetches u) (extract u))) elapsed
  rw [scrape_articles_run, h.1, h.2.1, h.2.2.1, hsucc, hfail]
  simpa using countSucc_add_countFail
    (urls.map fun u => toResult (scrape_single_url mr (fetches u) (extract u)))

/-- C2 witness: a fresh scraper over one failing and one succeeding URL. -/
theorem stats_sum_invariant_witness :
    (scrape_articles_run initStats ["a", "b"] 1
        (fun u _ => if u = "a" then AttemptOutcome.timeout
          else AttemptOutcome.response 200 "page")
        (fun u html => some { title := html, url := u }) 2).1.successful_items +
      (scrape_articles_run initStats ["a", "b"] 1
        (fun u _ => if u = "a" then AttemptOutcome.timeout
          else AttemptOutcome.response 200 "page")
        (fun u html => some { title := html, url := u }) 2).1.failed_items =
    (scrape_articles_run initStats ["a", "b"] 1
        (fun u _ => if u = "a" then AttemptOutcome.timeout
          else AttemptOutcome.response 200 "page")
        (fun u html => some { title := html, url := u }) 2).1.total_items :=
  stats_sum_invariant initStats ["a", "b"] 1
    (fun u _ => if u = "a" then AttemptOutcome.timeout
      else AttemptOutcome.response 200 "page")
    (fun u html => some { title := html, url := u }) 2 rfl rfl

/-- C5: on the empty URL list, a fresh scraper's `scrape_articles` returns an
empty record list, `total_items = 0`, and `items_per_second = 0` for every
possible elapsed time (both branches of the guarded throughput expression give
`0`, so no division by zero can occur), and no network attempt is issued. -/
theorem scrape_articles_empty (mr : Nat) (fetches : String → Nat → AttemptOutcome)
    (extract : String → String → Option Article) (elapsed : ℚ) :
    (scrape_articles_run initStats [] mr fetches extract elapsed).2 = [] ∧
    (scrape_articles_run initStats [] mr fetches extract elapsed).1.total_items = 0 ∧
    (scrape_articles_run initStats [] mr fetches extract elapsed).1.items_per_second = 0 ∧
    totalAttempts [] mr fetches = 0 := by
  have h := scrape_articles_fields initStats ([] : List ScrapeResult) elapsed
  refine ⟨?_, ?_, ?_, rfl⟩
  · rw [scrape_articles_run]; simpa [articlesOf] using h.2.2.2.2.2.2
  · rw [scrape_articles_run]; simpa using h.2.2.1
  · rw [scrape_articles_run]
    simp only [List.map_nil]
    rw [h.2.2.2.2.1]
    split <;> simp [initStats, countSucc]

/-- C8: on any non-empty URL list, a fresh scraper's `scrape_articles`
completes with `successful_items` equal to the number of returned records,
`failed_items = total_items - successful_items`, `total_items = len(urls)`,
throughput `successful / elapsed` when `elapsed > 0` and `0` otherwise, and
status `COMPLETED` — including the all-failures case. -/
theorem scrape_articles_final_snapshot (urls : List String) (mr : Nat)
    (fetches : String → Nat → AttemptOutcome) (extract : String → String → Option Article)
    (elapsed : ℚ) (_hne : urls ≠ []) :
    (scrape_articles_run initStats urls mr fetches extract elapsed).1.successful_items =
        (scrape_articles_run initStats urls mr fetches extract elapsed).2.length ∧
    (scrape_articles_run initStats urls mr fetches extract elapsed).1.failed_items =
        (scrape_articles_run initStats urls mr fetches extract elapsed).1.total_items -
          (scrape_articles_run initStats urls mr fetches extract elapsed).1.successful_items ∧
    (scrape_articles_run initStats urls mr fetches extract elapsed).1.total_items =
        urls.length ∧
    (scrape_articles_run initStats urls mr fetches extract elapsed).1.items_per_second =
        (if elapsed > 0 then
          ((scrape_articles_run initStats urls mr fetches extract
              elapsed).1.successful_items : ℚ) / elapsed
        else 0) ∧
    (scrape_articles_run initStats urls mr fetches extract elapsed).1.total_time = elapsed ∧
    (scrape_articles_run initStats urls mr fetches extract elapsed).1.status =
        ScraperStatus.completed := by
  have h := scrape_articles_fields initStats
    (urls.map fun u => toResult (scrape_single_url mr (fetches u) (extract u))) elapsed
  have hcount := countSucc_add_countFail
    (urls.map fun u => toResult (scrape_single_url mr (fetches u) (extract u)))
  rw [scrape_articles_run]
  refine ⟨?_, ?_, ?_, ?_, h.2.2.2.1, h.2.2.2.2.2.1⟩
  · rw [h.1, h.2.2.2.2.2.2, articlesOf_length]; simp [initStats]
  · rw [h.1, h.2.1, h.2.2.1]; simp only [List.length_map] at hcount ⊢
    simp [initStats]; omega
  · simpa using h.2.2.1
  · rw [h.2.2.2.2.1, h.1]

/-- C8 witness: one URL whose only attempt times out — the run completes with
`successful = 0 = records`, `failed = total = 1`, zero throughput. -/
theorem scrape_articles_final_snapshot_witness :
    (scrape_articles_run initStats ["a"] 1 (fun _ _ => AttemptOutcome.timeout)
        (fun _ _ => none) 2).1.successful_items =
      (scrape_articles_run initStats ["a"] 1 (fun _ _ => AttemptOutcome.timeout)
        (fun _ _ => none) 2).2.length ∧
    (scrape_articles_run initStats ["a"] 1 (fun _ _ => AttemptOutcome.timeout)
        (fun _ _ => none) 2).1.failed_items =
      (scrape_articles_run initStats ["a"] 1 (fun _ _ => AttemptOutcome.timeout)
        (fun _ _ => none) 2).1.total_items -
        (scrape_articles_run initStats ["a"] 1 (fun _ _ => AttemptOutcome.timeout)
          (fun _ _ => none) 2).1.successful_items ∧
    (scrape_articles_run initStats ["a"] 1 (fun _ _ => AttemptOutcome.timeout)
        (fun _ _ => none) 2).1.total_items = (["a"] : List String).length ∧
    (scrape_articles_run initStats ["a"] 1 (fun _ _ => AttemptOutcome.timeout)
        (fun _ _ => none) 2).1.items_per_second =
      (if (2 : ℚ) > 0 then
        ((scrape_articles_run initStats ["a"] 1 (fun _ _ => AttemptOutcome.timeout)
            (fun _ _ => none) 2).1.successful_items : ℚ) / 2
      else 0) ∧
    (scrape_articles_run initStats ["a"] 1 (fun _ _ => AttemptOutcome.timeout)
        (fun _ _ => none) 2).1.total_time = 2 ∧
    (scrape_articles_run initStats ["a"] 1 (fun _ _ => AttemptOutcome.timeout)
        (fun _ _ => none) 2).1.status = ScraperStatus.completed :=
  scrape_articles_final_snapshot ["a"] 1 (fun _ _ => AttemptOutcome.timeout)
    (fun _ _ => none) 2 (by simp)

/-- A sequence of `scrape_articles` calls on the same `WebScraper` instance,
each supplying its gathered results and elapsed time, threading the shared
`self.stats` object through. -/
def runCalls (s : ScraperStats) : List (List ScrapeResult × ℚ) → ScraperStats
  | [] => s
  | c :: rest => runCalls (scrape_articles s c.1 c.2).1 rest

/-- Helper: a call sequence leaves the status untouched or at `COMPLETED`. -/
theorem runCalls_status (calls : List (List ScrapeResult × ℚ)) :
    ∀ s : ScraperStats,
      (runCalls s calls).status = s.status ∨
      (runCalls s calls).status = ScraperStatus.completed := by
  induction calls with
  | nil => intro s; exact Or.inl rfl
  | cons c rest ih =>
    intro s
    have hdone := (scrape_articles_fields s c.1 c.2).2.2.2.2.2.1
    rcases ih (scrape_articles s c.1 c.2).1 with h | h
    · exact Or.inr (by rw [runCalls, h, hdone])
    · exact Or.inr (by rw [runCalls, h])

/-- C9: the stats status starts at `PENDING`, is set to `RUNNING` at the start
of `scrape_articles` and to `COMPLETED` at its end, and no sequence of
`scrape_articles` calls on a fresh scraper can ever reach `FAILED`. -/
theorem status_failed_unreachable :
    initStats.status = ScraperStatus.pending ∧
    (∀ (s : ScraperStats) (n : Nat), (scrapeStart s n).status = ScraperStatus.running) ∧
    (∀ (s : ScraperStats) (rs : List ScrapeResult) (e : ℚ),
      (scrape_articles s rs e).1.status = ScraperStatus.completed) ∧
    (∀ calls : List (List ScrapeResult × ℚ),
      (runCalls initStats calls).status ≠ ScraperStatus.failed) := by
  refine ⟨rfl, fun s n => rfl, fun s rs e => (scrape_articles_fields s rs e).2.2.2.2.2.1, ?_⟩
  intro calls
  rcases runCalls_status calls initStats with h | h <;> rw [h] <;> decide

/-- C10: at the start of `scrape_articles` only `status` and `total_items` are
written (the counters, `total_time` and `items_per_second` keep their prior
values); the counters are only ever incremented — by the number of successes
and failures respectively — so a second call on the same instance accumulates
both counters across runs while `total_items` is overwritten to `len(urls)`. -/
theorem scrape_articles_frame_and_accumulation :
    (∀ (s : ScraperStats) (n : Nat),
      (scrapeStart s n).successful_items = s.successful_items ∧
      (scrapeStart s n).failed_items = s.failed_items ∧
      (scrapeStart s n).total_time = s.total_time ∧
      (scrapeStart s n).items_per_second = s.items_per_second ∧
      (scrapeStart s n).total_items = n ∧
      (scrapeStart s n).status = ScraperStatus.running) ∧
    (∀ (s : ScraperStats) (rs : List ScrapeResult) (e : ℚ),
      (scrape_articles s rs e).1.successful_items = s.successful_items + countSucc rs ∧
      (scrape_articles s rs e).1.failed_items = s.failed_items + countFail rs ∧
      (scrape_articles s rs e).1.total_items = rs.length) ∧
    (∀ (rs₁ : List ScrapeResult) (e₁ : ℚ) (rs₂ : List ScrapeResult) (e₂ : ℚ),
      (scrape_articles (scrape_articles initStats rs₁ e₁).1 rs₂ e₂).1.successful_items
          = countSucc rs₁ + countSucc rs₂ ∧
      (scrape_articles (scrape_articles initStats rs₁ e₁).1 rs₂ e₂).1.failed_items
          = countFail rs₁ + countFail rs₂ ∧
      (scrape_articles (scrape_articles initStats rs₁ e₁).1 rs₂ e₂).1.total_items
          = rs₂.length) := by
  refine ⟨fun s n => ⟨rfl, rfl, rfl, rfl, rfl, rfl⟩, ?_, ?_⟩
  · intro s rs e
    have h := scrape_articles_fields s rs e
    exact ⟨h.1, h.2.1, h.2.2.1⟩
  · intro rs₁ e₁ rs₂ e₂
    have h₁ := scrape_articles_fields initStats rs₁ e₁
    have h₂ := scrape_articles_fields (scrape_articles initStats rs₁ e₁).1 rs₂ e₂
    refine ⟨?_, ?_, h₂.2.2.1⟩
    · rw [h₂.1, h₁.1]; simp [initStats]
    · rw [h₂.2.1, h₁.2.1]; simp [initStats]

/-- `class WebScraper` construction state (`WebScraper.__init__`). -/
structure WebScraper where
  rate_limiter : RateLimiter
  timeout : ℚ
  max_retries : Nat
  stats : ScraperStats
deriving DecidableEq, Repr

/-- `WebScraper.__init__`: builds the `RateLimiter` first (so a zero rate
raises there), then stores the timeout, retry budget and fresh stats. -/
def WebScraper.init (requests_per_second : ℚ) (timeout : ℚ) (max_retries : Nat) :
    Except String WebScraper :=
  (RateLimiter.init requests_per_second).map fun rl =>
    { rate_limiter := rl
      timeout := timeout
      max_retries := max_retries
      stats := initStats }

/-- C7 counterexample: the claim says every `requests_per_second ≤ 0` is
rejected at construction, but `RateLimiter(-1)` (and a `WebScraper` built with
that rate) constructs without any error: `1.0 / -1.0` does not raise in
Python, so the limiter silently gets `min_interval = -1`. -/
theorem negative_rate_constructs :
    (-1 : ℚ) ≤ 0 ∧
    RateLimiter.init (-1) =
      Except.ok
        { requests_per_second := -1, min_interval := -1, last_request_time := 0 } ∧
    WebScraper.init (-1) 10 3 =
      Except.ok
        { rate_limiter :=
            { requests_per_second := -1, min_interval := -1, last_request_time := 0 }
          timeout := 10
          max_retries := 3
          stats := initStats } := by
  refine ⟨by norm_num, ?_, ?_⟩ <;>
    norm_num [RateLimiter.init, WebScraper.init, Except.map]

/-- C7 (amended): construction fails only for `requests_per_second = 0`
(Python's `1.0 / requests_per_second` raises `ZeroDivisionError` there, before
any network activity); every nonzero rate — positive or negative — constructs
successfully with `min_interval = 1 / requests_per_second`, and a `WebScraper`
built with a nonzero rate embeds exactly that limiter. -/
theorem rate_limiter_construction (rps timeout : ℚ) (mr : Nat) (hrps : rps ≠ 0) :
    RateLimiter.init rps =
      Except.ok
        { requests_per_second := rps, min_interval := 1 / rps, last_request_time := 0 } ∧
    WebScraper.init rps timeout mr =
      Except.ok
        { rate_limiter :=
            { requests_per_second := rps, min_interval := 1 / rps, last_request_time := 0 }
          timeout := timeout
          max_retries := mr
          stats := initStats } ∧
    RateLimiter.init 0 = Except.error "ZeroDivisionError" := by
  refine ⟨?_, ?_, rfl⟩ <;> simp [RateLimiter.init, WebScraper.init, hrps, Except.map]

/-- C7 witness: the default rate `2.0` constructs a limiter with
`min_interval = 1/2`. -/
theorem rate_limiter_construction_witness :
    RateLimiter.init 2 =
      Except.ok
        { requests_per_second := 2, min_interval := 1 / 2, last_request_time := 0 } ∧
    WebScraper.init 2 10 3 =
      Except.ok
        { rate_limiter :=
            { requests_per_second := 2, min_interval := 1 / 2, last_request_time := 0 }
          timeout := 10
          max_retries := 3
          stats := initStats } ∧
    RateLimiter.init 0 = Except.error "ZeroDivisionError" :=
  rate_limiter_construction 2 10 3 (by norm_num)

/-- Position of one task inside the body of `RateLimiter.wait`: about to
execute the elapsed-time check, suspended in `asyncio.sleep` until `wake`, or
returned (its grant recorded). -/
inductive TaskPC where
  | ready
  | sleeping (wake : ℚ)
  | done
deriving DecidableEq, Repr

/-- Event-loop state for several tasks concurrently awaiting one limiter:
the shared limiter, the wall clock, each task's position, and the grant times
recorded so far (each `self.last_request_time = time.time()` write). -/
structure WaitSystem where
  limiter : RateLimiter
  clock : ℚ
  tasks : List TaskPC
  grants : List ℚ
deriving DecidableEq, Repr

/-- A scheduler event: resume task `i`, or let `d ≥ 0` seconds of wall time
pass. -/
inductive SchedEv where
  | run (i : Nat)
  | advance (d : ℚ)
deriving DecidableEq, Repr

/-- Task `i` executes the tail of `wait`: writes the current time into the
shared `last_request_time` and returns (a permission grant at `clock`). -/
def grantNow (s : WaitSystem) (i : Nat) : WaitSystem :=
  { s with
      limiter := { s.limiter with last_request_time := s.clock }
      tasks := s.tasks.set i TaskPC.done
      grants := s.grants ++ [s.clock] }

/-- One scheduler step.  A `ready` task runs `wait` up to its only suspension
point: it reads the shared timestamp, and either must sleep (recording its
wake time and yielding the event loop — the write has NOT happened yet) or
falls through and completes atomically.  A `sleeping` task whose wake time has
arrived resumes at the write.  This is exactly the interleaving `asyncio`
allows for the body of `RateLimiter.wait`. -/
def waitStep (s : WaitSystem) : SchedEv → WaitSystem
  | SchedEv.advance d => { s with clock := s.clock + (if 0 ≤ d then d else 0) }
  | SchedEv.run i =>
    match s.tasks[i]? with
    | some TaskPC.ready =>
      let elapsed := s.clock - s.limiter.last_request_time
      if elapsed < s.limiter.min_interval then
        { s with
            tasks := s.tasks.set i (TaskPC.sleeping (s.clock + (s.limiter.min_interval - elapsed))) }
      else grantNow s i
    | some (TaskPC.sleeping w) => if w ≤ s.clock then grantNow s i else s
    | _ => s

/-- Run a whole schedule. -/
def waitExec : WaitSystem → List SchedEv → WaitSystem :=
  List.foldl waitStep

/-- Two tasks both start a `wait` on a fresh limiter with
`requests_per_second = 1` at time `0`. -/
def raceStart : WaitSystem :=
  { limiter := { requests_per_second := 1, min_interval := 1, last_request_time := 0 }
    clock := 0
    tasks := [TaskPC.ready, TaskPC.ready]
    grants := [] }

/-- Both tasks read the stale timestamp before either writes, sleep until
time `1`, then both resume. -/
def raceSchedule : List SchedEv :=
  [SchedEv.run 0, SchedEv.run 1, SchedEv.advance 1, SchedEv.run 0, SchedEv.run 1]

/-- C1: `RateLimiter.wait` reads `last_request_time`, suspends in
`asyncio.sleep`, and only then writes, with no mutual exclusion.  Under the
interleaving in which two concurrent callers both read before either writes,
both sleep until time `1` and both proceed, recording two consecutive grants
at times `1` and `1` — an interval of `0 < min_interval = 1`.  The claimed
invariant fails on the code. -/
theorem rate_limiter_race_two_grants_too_close :
    (waitExec raceStart raceSchedule).grants = [1, 1] ∧
    (waitExec raceStart raceSchedule).tasks = [TaskPC.done, TaskPC.done] ∧
    (1 : ℚ) - 1 < raceStart.limiter.min_interval := by
  have h : waitExec raceStart raceSchedule =
      { limiter := { requests_per_second := 1, min_interval := 1, last_request_time := 1 }
        clock := 1
        tasks := [TaskPC.done, TaskPC.done]
        grants := [1, 1] } := by
    rw [waitExec, raceSchedule, raceStart]
    norm_num [List.foldl, waitStep, grantNow]
  rw [h]
  refine ⟨rfl, rfl, by norm_num [raceStart]⟩

/-- Helper: one uninterrupted `wait` call always grants at least
`min_interval` after the timestamp it read. -/
theorem wait_grant_spacing (rl : RateLimiter) (now : ℚ) :
    rl.min_interval ≤ (rl.wait now).2 - rl.last_request_time := by
  rw [RateLimiter.wait]
  by_cases h : now - rl.last_request_time < rl.min_interval <;> simp [h] <;> linarith

/-- Helper: the first grant of a sequential run is at least `min_interval`
after the limiter's current timestamp. -/
theorem waitRun_head_spacing (rest : List ℚ) (rl : RateLimiter) :
    ∀ y ∈ (waitRun rl rest).head?, rl.min_interval ≤ y - rl.last_request_time := by
  intro y hy
  cases rest with
  | nil => simp [waitRun] at hy
  | cons d rest' =>
    simp only [waitRun, List.head?_cons, Option.mem_def, Option.some.injEq] at hy
    rw [← hy]
    exact wait_grant_spacing rl (rl.last_request_time + d)

/-- Sequential counterpart of the C1 invariant: when the `wait` calls do not
interleave (each call runs read-sleep-write to completion before the next
starts), any two consecutive grants are at least `min_interval` apart. -/
theorem waitRun_sequential_spacing (delays : List ℚ) (rl : RateLimiter) :
    List.Chain' (fun a b => rl.min_interval ≤ b - a) (waitRun rl delays) := by
  induction delays generalizing rl with
  | nil => simp [waitRun]
  | cons d rest ih =>
    rw [waitRun]
    exact List.Chain'.cons' (ih _) fun y hy =>
      waitRun_head_spacing rest (rl.wait (rl.last_request_time + d)).1 y hy
